import Mathlib

/-!
# Verification of the LifeProof AI document-summarization pipeline

A shallow embedding, in Lean, of the Summarizer Worker
(`src/poc/lambda/summarizer/index.py`) and of the Batch Orchestrator retry
configuration (`src/poc/infrastructure/stack.py`), together with theorems
settling the behavioural claims of the specification.

Conventions:
* Python strings are embedded as `List Char`; slicing becomes `take`/`drop`.
* The external world (S3, Bedrock, DynamoDB) is a record of call outcomes
  (`Env`): the handler is a deterministic function of its configuration,
  the environment, and the triggering event.
* `json.loads` is embedded as an executable JSON parser (`parseJson`).
* Machine-time values (UUIDs, timestamps) are supplied by the environment.
-/

namespace LifeProof

/-! ## Python string primitives -/

/-- Whitespace characters stripped by Python `str.strip()` (ASCII range). -/
def pyIsSpace (c : Char) : Bool :=
  c = ' ' || c = '\t' || c = '\n' || c = '\x0d' || c = '\x0b' || c = '\x0c'

/-- Python `s.strip()`: remove whitespace from both ends. -/
def pyStrip (s : List Char) : List Char :=
  ((s.dropWhile pyIsSpace).reverse.dropWhile pyIsSpace).reverse

/-- Python `key.split("/")[-1]`: the part after the last slash. -/
def lastSlashSegment (key : List Char) : List Char :=
  (key.reverse.takeWhile (fun c => c != '/')).reverse

/-- Python `filename.rsplit(".", 1)[0]`: everything before the last dot,
or the whole string when it has no dot. -/
def stripLastExtension (fn : List Char) : List Char :=
  if fn.contains '.' then
    ((fn.reverse.dropWhile (fun c => c != '.')).drop 1).reverse
  else fn

/-! ## JSON values and an executable `json.loads`

The value type mirrors what `json.loads` can produce.  Numeric literals keep
their lexeme (no claim inspects numeric values).  Objects keep their fields in
parse order; `lookupLast` returns the last binding for a key, matching the
overwrite behaviour of Python dict construction for duplicate keys. -/

inductive Json where
  | null
  | bool (b : Bool)
  | num (lexeme : List Char)
  | str (s : List Char)
  | arr (elems : List Json)
  | obj (fields : List (List Char × Json))

/-- JSON structural whitespace. -/
def jsonWs (c : Char) : Bool :=
  c = ' ' || c = '\t' || c = '\n' || c = '\x0d'

/-- Decode one hex digit (working on the code point directly). -/
def hexDigit (c : Char) : Option Nat :=
  let n := c.toNat
  if 48 ≤ n && n ≤ 57 then some (n - 48)
  else if 97 ≤ n && n ≤ 102 then some (n - 87)
  else if 65 ≤ n && n ≤ 70 then some (n - 55)
  else none

/-- Decode a `\uXXXX` escape. -/
def hexQuad (a b c d : Char) : Option Nat :=
  match hexDigit a, hexDigit b, hexDigit c, hexDigit d with
  | some ha, some hb, some hc, some hd =>
      some (4096 * ha + 256 * hb + 16 * hc + hd)
  | _, _, _, _ => none

/-- Parse the body of a JSON string (after the opening quote), returning the
decoded characters and the remaining input.  Unescaped control characters are
rejected, as in `json.loads` strict mode. -/
def parseStrAux : List Char → Option (List Char × List Char)
  | '"' :: rest => some ([], rest)
  | '\\' :: 'n' :: rest => (fun p => ('\n' :: p.1, p.2)) <$> parseStrAux rest
  | '\\' :: 't' :: rest => (fun p => ('\t' :: p.1, p.2)) <$> parseStrAux rest
  | '\\' :: 'r' :: rest => (fun p => ('\x0d' :: p.1, p.2)) <$> parseStrAux rest
  | '\\' :: 'b' :: rest => (fun p => ('\x08' :: p.1, p.2)) <$> parseStrAux rest
  | '\\' :: 'f' :: rest => (fun p => ('\x0c' :: p.1, p.2)) <$> parseStrAux rest
  | '\\' :: '/' :: rest => (fun p => ('/' :: p.1, p.2)) <$> parseStrAux rest
  | '\\' :: '\\' :: rest => (fun p => ('\\' :: p.1, p.2)) <$> parseStrAux rest
  | '\\' :: '"' :: rest => (fun p => ('"' :: p.1, p.2)) <$> parseStrAux rest
  | '\\' :: 'u' :: a :: b :: c :: d :: rest =>
      match hexQuad a b c d with
      | some n => (fun p => (Char.ofNat n :: p.1, p.2)) <$> parseStrAux rest
      | none => none
  | '\\' :: _ => none
  | c :: rest =>
      if c.toNat < 32 then none
      else (fun p => (c :: p.1, p.2)) <$> parseStrAux rest
  | [] => none

/-- Lex the fractional part and exponent of a JSON number after its integer
part `acc`, returning the full lexeme and the remaining input. -/
def lexNumTail (acc : List Char) (s : List Char) : Option (List Char × List Char) :=
  let step1 : Option (List Char × List Char) :=
    match s with
    | '.' :: r =>
        match r.span Char.isDigit with
        | ([], _) => none
        | (ds, r2) => some (acc ++ '.' :: ds, r2)
    | _ => some (acc, s)
  match step1 with
  | none => none
  | some (acc2, s2) =>
      match s2 with
      | 'e' :: r | 'E' :: r =>
          let (sgn, r2) :=
            match r with
            | '+' :: r2 => (['+'], r2)
            | '-' :: r2 => (['-'], r2)
            | _ => (([] : List Char), r)
          match r2.span Char.isDigit with
          | ([], _) => none
          | (ds, r3) => some (acc2 ++ 'e' :: (sgn ++ ds), r3)
      | _ => some (acc2, s2)

/-- Lex a JSON number literal (sign, integer part without leading zeros,
optional fraction and exponent), as accepted by `json.loads`. -/
def lexNumber (s : List Char) : Option (List Char × List Char) :=
  let (sgn, s1) :=
    match s with
    | '-' :: r => ((['-'] : List Char), r)
    | _ => (([] : List Char), s)
  match s1 with
  | '0' :: r => lexNumTail (sgn ++ ['0']) r
  | c :: r =>
      if c.isDigit then
        match r.span Char.isDigit with
        | (ds, r2) => lexNumTail (sgn ++ c :: ds) r2
      else none
  | [] => none

mutual

/-- Parse one JSON value; the fuel bounds recursion depth. -/
def parseValue : Nat → List Char → Option (Json × List Char)
  | 0, _ => none
  | fuel + 1, s =>
    let s := s.dropWhile jsonWs
    match s with
    | 'n' :: 'u' :: 'l' :: 'l' :: r => some (.null, r)
    | 't' :: 'r' :: 'u' :: 'e' :: r => some (.bool true, r)
    | 'f' :: 'a' :: 'l' :: 's' :: 'e' :: r => some (.bool false, r)
    | '"' :: r => (fun p => (Json.str p.1, p.2)) <$> parseStrAux r
    | '[' :: r =>
        match r.dropWhile jsonWs with
        | ']' :: r2 => some (.arr [], r2)
        | _ => (fun p => (Json.arr p.1, p.2)) <$> parseElems fuel r
    | '{' :: r =>
        match r.dropWhile jsonWs with
        | '}' :: r2 => some (.obj [], r2)
        | _ => (fun p => (Json.obj p.1, p.2)) <$> parseFields fuel r
    | _ => (fun p => (Json.num p.1, p.2)) <$> lexNumber s

/-- Parse the elements of a non-empty JSON array (after the opening bracket). -/
def parseElems : Nat → List Char → Option (List Json × List Char)
  | 0, _ => none
  | fuel + 1, s =>
    match parseValue fuel s with
    | none => none
    | some (v, r) =>
        match r.dropWhile jsonWs with
        | ',' :: r2 => (fun p => (v :: p.1, p.2)) <$> parseElems fuel r2
        | ']' :: r2 => some ([v], r2)
        | _ => none

/-- Parse the fields of a non-empty JSON object (after the opening brace). -/
def parseFields : Nat → List Char → Option (List (List Char × Json) × List Char)
  | 0, _ => none
  | fuel + 1, s =>
    match s.dropWhile jsonWs with
    | '"' :: r =>
        match parseStrAux r with
        | none => none
        | some (k, r1) =>
            match r1.dropWhile jsonWs with
            | ':' :: r2 =>
                match parseValue fuel r2 with
                | none => none
                | some (v, r3) =>
                    match r3.dropWhile jsonWs with
                    | ',' :: r4 => (fun p => ((k, v) :: p.1, p.2)) <$> parseFields fuel r4
                    | '}' :: r4 => some ([(k, v)], r4)
                    | _ => none
            | _ => none
    | _ => none

end

/-- The embedding of `json.loads`: parse a complete JSON document; trailing
content other than whitespace is rejected.  The fuel `2 * length + 2` exceeds
the maximal recursion depth (each nesting level consumes input). -/
def parseJson (s : List Char) : Option Json :=
  match parseValue (2 * s.length + 2) s with
  | some (v, rest) => if rest.dropWhile jsonWs = [] then some v else none
  | none => none

/-- Last binding of a key in an object's field list (Python dicts built from
JSON keep the last duplicate). -/
def lookupLast (fields : List (List Char × Json)) (k : List Char) : Option Json :=
  match fields with
  | [] => none
  | kv :: rest =>
      match lookupLast rest k with
      | some v => some v
      | none => if kv.1 == k then some kv.2 else none

/-- Python `d.get(k, default)`.  In the handler it is only ever applied to a
dict (`save_summary` has already raised on anything else), so the non-object
case is unreachable there. -/
def jGet (j : Json) (k : List Char) (d : Json) : Json :=
  match j with
  | .obj fields => (lookupLast fields k).getD d
  | _ => d

/-- Python dict assignment `d[k] = v`: overwrite an existing binding, else
append.  Fails (Python `TypeError`) on a non-dict. -/
def setField (fields : List (List Char × Json)) (k : List Char) (v : Json) :
    List (List Char × Json) :=
  if fields.any (fun kv => kv.1 == k) then
    fields.map (fun kv => if kv.1 == k then (k, v) else kv)
  else fields ++ [(k, v)]

/-- Item assignment on a `Json` value; `none` models the `TypeError` Python
raises when the value is not a dict. -/
def jSet (j : Json) (k : List Char) (v : Json) : Option Json :=
  match j with
  | .obj fields => some (.obj (setField fields k v))
  | _ => none

/-- The fixed system rubric string (index.py lines 55-105), verbatim. -/
def UNDERWRITING_RUBRIC : String :=
  "\n" ++
  "<underwriting_rubric>\n" ++
  "You are an automated Underwriting Assistant for a major Life Insurance provider.\n" ++
  "Your task is to extract clinical risk factors from medical documents and classify\n" ++
  "the applicant\x27s risk level based on the following STRICT rubric:\n" ++
  "\n" ++
  "## Risk Classification Criteria\n" ++
  "\n" ++
  "### HIGH RISK (Requires Senior Underwriter Review)\n" ++
  "- Any history of Myocardial Infarction (MI) or Stroke within the last 5 years\n" ++
  "- Left Ventricular Ejection Fraction (LVEF) < 45%\n" ++
  "- Active malignancy or cancer treatment within 2 years\n" ++
  "- End-stage renal disease (ESRD) or dialysis\n" ++
  "- Insulin-dependent diabetes with HbA1c > 9.0%\n" ++
  "- Severe COPD (FEV1 < 50% predicted)\n" ++
  "- Active substance abuse or addiction\n" ++
  "- Organ transplant recipient\n" ++
  "\n" ++
  "### MEDIUM RISK (Standard Review with Conditions)\n" ++
  "- Managed Type 2 Diabetes (HbA1c 7.0-9.0%)\n" ++
  "- Treated Hypertension requiring 2+ medications\n" ++
  "- Current or former tobacco use (within 5 years)\n" ++
  "- Controlled Atrial Fibrillation\n" ++
  "- Stage 2-3 Chronic Kidney Disease (GFR 30-60)\n" ++
  "- History of cancer in remission > 2 years\n" ++
  "- Obesity (BMI > 35)\n" ++
  "- Sleep apnea on CPAP therapy\n" ++
  "\n" ++
  "### LOW RISK (Standard Approval)\n" ++
  "- No chronic conditions\n" ++
  "- Stable conditions managed with single-medication therapy\n" ++
  "- Controlled hypertension on monotherapy\n" ++
  "- Pre-diabetes (HbA1c < 6.5%)\n" ++
  "- Minor surgical history (appendectomy, cholecystectomy, etc.)\n" ++
  "- Allergies or minor skin conditions\n" ++
  "\n" ++
  "## Required Analysis Steps\n" ++
  "\n" ++
  "1. **Identify Chronic Conditions:** List ALL diagnosed chronic illnesses with date of onset\n" ++
  "2. **Medication Analysis:** Extract current prescriptions and note any non-compliance mentions\n" ++
  "3. **Lifestyle Assessment:** Flag tobacco use, alcohol abuse, hazardous hobbies\n" ++
  "4. **Recent Events:** List hospitalizations or surgeries in the last 24 months\n" ++
  "5. **Laboratory Review:** Note any abnormal values (HbA1c, GFR, EF%, cholesterol)\n" ++
  "6. **Risk Determination:** Compare findings against the rubric above\n" ++
  "\n" ++
  "## Output Requirements\n" ++
  "\n" ++
  "Return ONLY a valid JSON object. Do not include any explanatory text outside the JSON.\n" ++
  "If information is missing for a section, use \"Not found in report\" - NEVER fabricate data.\n" ++
  "</underwriting_rubric>\n" ++
  ""

/-- The fixed required output schema string (index.py lines 107-149), verbatim. -/
def OUTPUT_SCHEMA : String :=
  "\n" ++
  "\x7b\n" ++
  "  \"patient_id\": \"string - Patient identifier from document\",\n" ++
  "  \"processing_id\": \"string - Unique processing ID\",\n" ++
  "  \"risk_level\": \"HIGH | MEDIUM | LOW\",\n" ++
  "  \"risk_factors\": [\"array of identified risk factors\"],\n" ++
  "  \"conditions\": [\n" ++
  "    \x7b\n" ++
  "      \"name\": \"string - condition name\",\n" ++
  "      \"onset_date\": \"string - date of diagnosis\",\n" ++
  "      \"status\": \"active | managed | resolved\"\n" ++
  "    \x7d\n" ++
  "  ],\n" ++
  "  \"medications\": [\n" ++
  "    \x7b\n" ++
  "      \"name\": \"string - medication name\",\n" ++
  "      \"dosage\": \"string - dosage\",\n" ++
  "      \"compliance\": \"compliant | non-compliant | unknown\"\n" ++
  "    \x7d\n" ++
  "  ],\n" ++
  "  \"surgeries\": [\n" ++
  "    \x7b\n" ++
  "      \"procedure\": \"string\",\n" ++
  "      \"date\": \"string\",\n" ++
  "      \"outcome\": \"string\"\n" ++
  "    \x7d\n" ++
  "  ],\n" ++
  "  \"lifestyle_flags\": \x7b\n" ++
  "    \"tobacco\": \"current | former | never | unknown\",\n" ++
  "    \"alcohol\": \"none | moderate | heavy | unknown\",\n" ++
  "    \"hazardous_activities\": [\"array of activities\"]\n" ++
  "  \x7d,\n" ++
  "  \"lab_values\": \x7b\n" ++
  "    \"HbA1c\": \"value or Not found\",\n" ++
  "    \"GFR\": \"value or Not found\",\n" ++
  "    \"LVEF\": \"value or Not found\",\n" ++
  "    \"LDL\": \"value or Not found\"\n" ++
  "  \x7d,\n" ++
  "  \"underwriter_notes\": \"string - Key observations for human review\",\n" ++
  "  \"confidence_score\": \"HIGH | MEDIUM | LOW\",\n" ++
  "  \"model_used\": \"string - Model ID used for summarization\"\n" ++
  "\x7d\n" ++
  ""

/-! ## Summarizer Worker embedding (`src/poc/lambda/summarizer/index.py`) -/

/-- Hard input cap on document characters (index.py line 222). -/
def MAX_INPUT_CHARS : Nat := 150000

/-- Token threshold for model routing (index.py line 49). -/
def TOKEN_THRESHOLD : Nat := 8000

/-- The marker spliced into over-long documents (index.py line 225). -/
def TRUNCATION_MARKER : String := "\n\n[...DOCUMENT TRUNCATED...]\n\n"

/-- Environment-derived worker configuration (index.py lines 39-46).
Unset environment variables are `none`. -/
structure Config where
  modelId? : Option (List Char)
  defaultModel : List Char
  fastModel : List Char
  summaryBucket : List Char
  failedBucket : List Char
  trackingTable? : Option (List Char)

/-- The triggering event, after collapsing the two accepted field casings
(`event.get("Bucket") or event.get("bucket")`, same for the key). -/
structure Event where
  bucket? : Option (List Char)
  key? : Option (List Char)

/-- Python truthiness on an optional string: `None` and the empty string are
both falsy (`if not bucket`, `if MODEL_ID`, `if not TRACKING_TABLE`). -/
def optTruthy : Option (List Char) → Option (List Char)
  | none => none
  | some [] => none
  | some s => some s

/-- Exceptions the handler can observe (index.py).  Each constructor carries
the `str(e)` message text. -/
inductive PyErr where
  | clientError (msg : List Char)
  | decodeError (msg : List Char)
  | valueError (msg : List Char)
  | typeError (msg : List Char)
deriving DecidableEq

/-- `type(e).__name__` for the embedded exception kinds. -/
def errName : PyErr → List Char
  | .clientError _ => "ClientError".toList
  | .decodeError _ => "UnicodeDecodeError".toList
  | .valueError _ => "ValueError".toList
  | .typeError _ => "TypeError".toList

/-- `str(e)` for the embedded exception kinds. -/
def errMsg : PyErr → List Char
  | .clientError m => m
  | .decodeError m => m
  | .valueError m => m
  | .typeError m => m

/-- Message of the ValueError raised on empty documents (index.py line 406). -/
def emptyDocMessage : String := "Document is empty or could not be extracted"

/-- The spec taxonomy name `EmptyDocumentError` denotes this concrete
exception: `ValueError("Document is empty or could not be extracted")`. -/
def EmptyDocumentError : PyErr := .valueError emptyDocMessage.toList

/-- Outcomes of the external calls one handler invocation performs.  S3 /
Bedrock / DynamoDB are collaborators, so their responses (and the
machine-generated UUID and timestamps) are inputs of the embedding:
`extractResult` is the outcome of `extract_document` (S3 `get_object` plus
charset decoding), `bedrockResult` the raw model text or a `ClientError`,
the three put outcomes the responses of `put_object`/`put_item`. -/
structure Env where
  extractResult : Except PyErr (List Char)
  bedrockResult : Except PyErr (List Char)
  putSummary : Except PyErr Unit
  putFailed : Except PyErr Unit
  dynamoPut : Except PyErr Unit
  processingId : List Char
  timestamp : List Char
  generatedAt : List Char
  failedAt : List Char

/-- One DynamoDB tracking item, with the fields the handler writes
(index.py lines 419-428 and 458-465). -/
structure TrackRecord where
  document_id : List Char
  processing_timestamp : List Char
  processing_id : List Char
  status : List Char
  risk_level : Json
  model_used : Option (List Char)
  summary_location : Option (List Char)
  confidence_score : Option Json
  error_message : Option (List Char)

/-- Observable side effects of one handler invocation.  `trackingCalls` are
the records passed to `update_tracking_table`; `trackingRows` those actually
persisted (none when the table is unconfigured or the put fails). -/
structure Effects where
  bedrockCalls : Nat
  prompts : List (List Char)
  summaryWrites : List (List Char × Json)
  failedWrites : List (List Char × Json)
  trackingCalls : List TrackRecord
  trackingRows : List TrackRecord

/-- The no-effect value. -/
def Effects.none : Effects := ⟨0, [], [], [], [], []⟩

/-- The handler's normal (non-raising) return values. -/
inductive HandlerResult where
  | failedEvent (error : List Char) (pid : List Char)
  | skipped (reason key : List Char)
  | succeeded (pid inputKey outputKey : List Char) (riskLevel : Json) (modelUsed : List Char)

/-- `estimate_tokens` (index.py lines 152-157): `len(text) // 4`. -/
def estimate_tokens (text : List Char) : Nat := text.length / 4

/-- `select_model` (index.py lines 160-182): fixed override when `MODEL_ID`
is truthy, else two-tier routing on the token estimate. -/
def select_model (cfg : Config) (text : List Char) : List Char :=
  match optTruthy cfg.modelId? with
  | some m => m
  | none =>
      if estimate_tokens text < TOKEN_THRESHOLD then cfg.fastModel
      else cfg.defaultModel

/-- The truncation step of `invoke_bedrock` (index.py lines 222-226):
`text[:half] + marker + text[-half:]` when over the cap. -/
def truncateDoc (text : List Char) : List Char :=
  if text.length > MAX_INPUT_CHARS then
    text.take (MAX_INPUT_CHARS / 2) ++ TRUNCATION_MARKER.toList
      ++ text.drop (text.length - MAX_INPUT_CHARS / 2)
  else text

/-- Fixed prompt text before the rubric (index.py line 229). -/
def PROMPT_P1 : String :=
  "\nAnalyze the following medical document and generate an underwriting summary.\n\n"

/-- Fixed prompt text between rubric and document (index.py lines 233-234). -/
def PROMPT_P2 : String := "\n\n<medical_document>\n"

/-- Fixed prompt text between document and schema (index.py lines 235-238). -/
def PROMPT_P3 : String := "\n</medical_document>\n\nRequired output format:\n"

/-- Fixed prompt text before the processing id (index.py lines 240-241). -/
def PROMPT_P4 : String := "\n\nIMPORTANT: \n- Use processing_id: \""

/-- Fixed prompt text between processing id and model id (index.py line 242). -/
def PROMPT_P5 : String := "\"\n- model_used: \""

/-- Fixed prompt text after the model id (index.py lines 243-246). -/
def PROMPT_P6 : String :=
  "\"\n- Return ONLY the JSON object, no additional text\n- Think step-by-step before determining the risk level\n- Cross-reference all findings against the rubric criteria\n"

/-- The `user_prompt` f-string of `invoke_bedrock` (index.py lines 228-246),
applied to the (possibly truncated) document text. -/
def buildPrompt (text pid mid : List Char) : List Char :=
  PROMPT_P1.toList ++ UNDERWRITING_RUBRIC.toList ++ PROMPT_P2.toList
    ++ truncateDoc text ++ PROMPT_P3.toList ++ OUTPUT_SCHEMA.toList
    ++ PROMPT_P4.toList ++ pid ++ PROMPT_P5.toList ++ mid ++ PROMPT_P6.toList

/-- The Markdown code-fence stripping of `invoke_bedrock`
(index.py lines 268-274), performed sequentially exactly as in the source. -/
def stripFences (raw : List Char) : List Char :=
  let s0 := pyStrip raw
  let s1 := if "\x60\x60\x60json".toList.isPrefixOf s0 then s0.drop 7 else s0
  let s2 := if "\x60\x60\x60".toList.isPrefixOf s1 then s1.drop 3 else s1
  if "\x60\x60\x60".toList.isSuffixOf s2 then s2.take (s2.length - 3) else s2

/-- The parsing tail of `invoke_bedrock` (index.py lines 267-287): parse the
fence-stripped model text as JSON; on `json.JSONDecodeError` return the
degraded summary dict instead of raising.  `raw_response` holds the first
1000 characters of the fence-stripped text (`summary_text[:1000]`). -/
def parseModelOutput (raw pid mid : List Char) : Json :=
  let s := stripFences raw
  match parseJson (pyStrip s) with
  | some j => j
  | none =>
      .obj [("processing_id".toList, .str pid),
            ("risk_level".toList, .str "UNKNOWN".toList),
            ("error".toList, .str "Failed to parse AI response".toList),
            ("raw_response".toList, .str (s.take 1000)),
            ("model_used".toList, .str mid)]

/-- `filename = original_key.split("/")[-1]; base_name =
filename.rsplit(".", 1)[0]` (index.py lines 298-299 and 320-321). -/
def basename (key : List Char) : List Char :=
  stripLastExtension (lastSlashSegment key)

/-- Output key of `save_summary` (index.py line 300). -/
def summaryKey (key : List Char) : List Char :=
  "summaries/".toList ++ basename key ++ "_summary.json".toList

/-- Output key of `save_failed_document` (index.py line 322). -/
def failedKey (key : List Char) : List Char :=
  "failed/".toList ++ basename key ++ "_error.json".toList

/-- `f"s3://{bucket}/{key}"`. -/
def s3Url (bucket key : List Char) : List Char :=
  "s3://".toList ++ bucket ++ "/".toList ++ key

/-- The stamping `save_summary` performs before writing (index.py
lines 302-303); `none` is the `TypeError` on a non-dict summary. -/
def stampSummary (summary : Json) (key genAt : List Char) : Option Json :=
  (jSet summary "original_document".toList (.str key)).bind
    (fun s => jSet s "generated_at".toList (.str genAt))

/-- `update_tracking_table` (index.py lines 338-351): rows persisted.  The
skip when `TRACKING_TABLE` is falsy and the swallowed `ClientError` mean the
function never raises; it contributes rows only when configured and the put
succeeds. -/
def trackingRowsFor (cfg : Config) (dynamoPut : Except PyErr Unit)
    (r : TrackRecord) : List TrackRecord :=
  match optTruthy cfg.trackingTable? with
  | Option.none => []
  | some _ =>
      match dynamoPut with
      | .ok _ => [r]
      | .error _ => []

/-- The FAILED tracking record built in the handler's except path
(index.py lines 458-465); the message is truncated to 500 characters. -/
def failRecord (key ts pid : List Char) (e : PyErr) : TrackRecord :=
  { document_id := key, processing_timestamp := ts, processing_id := pid,
    status := "FAILED".toList, risk_level := .str "ERROR".toList,
    model_used := Option.none, summary_location := Option.none,
    confidence_score := Option.none,
    error_message := some ((errMsg e).take 500) }

/-- The handler's except path (index.py lines 440-469): build `error_info`,
try `save_failed_document` (its own failure is swallowed), write a FAILED
tracking record; the caller then re-raises the original exception. -/
def failEffects (env : Env) (bucket key : List Char)
    (e : PyErr) (base : Effects) : Effects :=
  let errInfo : Json :=
    .obj [("processing_id".toList, .str env.processingId),
          ("error_type".toList, .str (errName e)),
          ("error_message".toList, .str (errMsg e)),
          ("bucket".toList, .str bucket),
          ("key".toList, .str key),
          ("original_document".toList, .str key),
          ("failed_at".toList, .str env.failedAt)]
  let failedW :=
    match env.putFailed with
    | .ok _ => [(failedKey key, errInfo)]
    | .error _ => []
  let r := failRecord key env.timestamp env.processingId e
  { base with failedWrites := failedW, trackingCalls := [r] }

/-- Supported document suffixes (index.py line 392). -/
def isDocKey (key : List Char) : Bool :=
  ".txt".toList.isSuffixOf key || ".pdf".toList.isSuffixOf key

/-- Message of the missing-field early return (index.py line 383). -/
def missingFieldMessage : String :=
  "Missing required \x27Bucket\x27/\x27bucket\x27 or \x27Key\x27/\x27key\x27 in event"

/-- The `TypeError` raised by `save_summary` when the parsed summary is not
a dict (item assignment on a non-dict, index.py line 302). -/
def stampTypeError : PyErr :=
  .typeError "\x27int\x27 object does not support item assignment".toList

/-- Effects of reaching the Bedrock invocation: one model call with the
built prompt (index.py lines 248-262). -/
def invokeEffects (cfg : Config) (text pid : List Char) : Effects :=
  { Effects.none with bedrockCalls := 1,
                      prompts := [buildPrompt text pid (select_model cfg text)] }

/-- The Lambda `handler` (index.py lines 354-469) as a deterministic function
of configuration, external-call outcomes and event, except that tracking rows
are materialized by `handler` below.  Returns the Python return value
(`.ok`) or the propagated exception (`.error`), paired with the observable
side effects.  The COMPLETED record reads `risk_level` and
`confidence_score` from the parsed summary before stamping, which is
observationally identical to the source's post-`save_summary` read since
stamping never touches those keys. -/
def handlerCore (cfg : Config) (env : Env) (event : Event) :
    Except PyErr HandlerResult × Effects :=
  let pid := env.processingId
  let ts := env.timestamp
  match optTruthy event.bucket?, optTruthy event.key? with
  | some bucket, some key =>
    if isDocKey key then
      match env.extractResult with
      | .error e => (.error e, failEffects env bucket key e Effects.none)
      | .ok text =>
        if (pyStrip text).isEmpty then
          (.error EmptyDocumentError,
           failEffects env bucket key EmptyDocumentError Effects.none)
        else
          let modelId := select_model cfg text
          let eff0 := invokeEffects cfg text pid
          match env.bedrockResult with
          | .error e => (.error e, failEffects env bucket key e eff0)
          | .ok raw =>
            let summary := parseModelOutput raw pid modelId
            match stampSummary summary key env.generatedAt with
            | Option.none =>
                (.error stampTypeError, failEffects env bucket key stampTypeError eff0)
            | some body =>
              match env.putSummary with
              | .error e => (.error e, failEffects env bucket key e eff0)
              | .ok _ =>
                let outKey := summaryKey key
                let rl := jGet summary "risk_level".toList (.str "UNKNOWN".toList)
                let trec : TrackRecord :=
                  { document_id := key, processing_timestamp := ts,
                    processing_id := pid, status := "COMPLETED".toList,
                    risk_level := rl, model_used := some modelId,
                    summary_location := some (s3Url cfg.summaryBucket outKey),
                    confidence_score :=
                      some (jGet summary "confidence_score".toList
                              (.str "UNKNOWN".toList)),
                    error_message := Option.none }
                (.ok (.succeeded pid key outKey rl modelId),
                 { eff0 with summaryWrites := [(outKey, body)],
                             trackingCalls := [trec] })
    else
      (.ok (.skipped "Not a supported document type".toList key), Effects.none)
  | _, _ => (.ok (.failedEvent missingFieldMessage.toList pid), Effects.none)

/-- The full handler: `handlerCore` plus the materialization of tracking rows
by `update_tracking_table` for each record passed to it (at most one per
invocation).  `update_tracking_table` never raises, so this step cannot
change the result. -/
def handler (cfg : Config) (env : Env) (event : Event) :
    Except PyErr HandlerResult × Effects :=
  let out := handlerCore cfg env event
  (out.1,
   { out.2 with
     trackingRows := out.2.trackingCalls.flatMap (trackingRowsFor cfg env.dynamoPut) })

/-! ## Batch Orchestrator (`src/poc/infrastructure/stack.py`)

The control logic is a static Step Functions state-machine definition
(stack.py lines 312-409) executed by the managed Step Functions runtime,
which is not part of this repository.  The numeric retry policies below are
embedded from that JSON definition; the per-item execution loop is modelled
from the specification (§4.2), reading "up to N attempts" as "up to N worker
invocations in total". -/

/-- Step Functions error names appearing in the retrier `ErrorEquals`
lists (stack.py lines 369-373); `other` covers every further error, matched
only by `States.ALL`. -/
inductive SfnErrorName where
  | throttlingException
  | tooManyRequestsException
  | statesTimeout
  | other (name : List Char)
deriving DecidableEq

/-- One retrier of the `SummarizeDocument` task. -/
structure RetryPolicy where
  intervalSeconds : ℚ
  maxAttempts : Nat
  backoffRate : ℚ
deriving DecidableEq

/-- Retry tier A (stack.py lines 368-377): throttling and timeout errors;
`IntervalSeconds 2, MaxAttempts 5, BackoffRate 2.0`. -/
def tierA : RetryPolicy := { intervalSeconds := 2, maxAttempts := 5, backoffRate := 2 }

/-- Retry tier B (stack.py lines 378-383): `States.ALL`;
`IntervalSeconds 5, MaxAttempts 2, BackoffRate 1.5`. -/
def tierB : RetryPolicy := { intervalSeconds := 5, maxAttempts := 2, backoffRate := 3 / 2 }

/-- Whether an error is matched by the tier A `ErrorEquals` list. -/
def tierAMatches : SfnErrorName → Bool
  | .throttlingException => true
  | .tooManyRequestsException => true
  | .statesTimeout => true
  | .other _ => false

/-- The first retrier whose `ErrorEquals` matches the error (retriers are
consulted in order; `States.ALL` matches everything). -/
def classifyError (e : SfnErrorName) : RetryPolicy :=
  if tierAMatches e then tierA else tierB

/-- Outcome of one worker invocation for an item, as seen by the retry loop. -/
inductive Attempt where
  | ok
  | err (e : SfnErrorName)

/-- Terminal state of one item: SUCCEEDED after some number of invocations,
or routed to the dead-letter queue (`HandleFailedDocument`, stack.py
lines 395-403) with its terminal error.  `delays` lists the backoff delays
slept before each retry. -/
inductive ItemOutcome where
  | succeeded (invocations : Nat) (delays : List ℚ)
  | deadLettered (e : SfnErrorName) (invocations : Nat) (delays : List ℚ)
deriving DecidableEq

/-- Modelled from the spec: the per-item retry loop of the Batch Orchestrator
(spec §4.2), whose interpreter — the managed Step Functions runtime — is not
part of this repository; only its numeric policy (in the state-machine JSON)
is.  `script n` is the outcome of the n-th worker invocation of the item
(1-based).  A failed attempt consults the tier matching its error: the item
is retried after the exponential-backoff delay of that tier while the invocation
count is below the `maxAttempts` of that tier, and is otherwise routed to the
dead-letter destination.  `fuel` merely bounds the recursion; `runItem`
supplies fuel no smaller than every `maxAttempts`, which makes the
fuel-exhaustion branch unreachable. -/
def runItemAux (script : Nat → Attempt) : Nat → Nat → List ℚ → ItemOutcome
  | n, 0, delays =>
      match script n with
      | .ok => .succeeded n delays
      | .err e => .deadLettered e n delays
  | n, fuel + 1, delays =>
      match script n with
      | .ok => .succeeded n delays
      | .err e =>
          let p := classifyError e
          if n < p.maxAttempts then
            runItemAux script (n + 1) fuel
              (delays ++ [p.intervalSeconds * p.backoffRate ^ (n - 1)])
          else .deadLettered e n delays

/-- Modelled from the spec: run one item from its first invocation. -/
def runItem (script : Nat → Attempt) : ItemOutcome := runItemAux script 1 5 []

/-- Whether an item reached SUCCEEDED. -/
def ItemOutcome.isSucceeded : ItemOutcome → Bool
  | .succeeded _ _ => true
  | _ => false

/-- Aggregate result of one orchestrator run (spec §3 BatchResult). -/
structure BatchResult where
  outcomes : List ItemOutcome
  succeededCount : Nat
  failedCount : Nat

/-- Modelled from the spec: the Distributed Map fan-out (stack.py
lines 345-407) processes every item independently through the per-item retry
loop; concurrency (`MaxConcurrency: 50`) bounds only parallelism and cannot
affect per-item outcomes, since items share no state. -/
def batchRun (scripts : List (Nat → Attempt)) : BatchResult :=
  let outs := scripts.map runItem
  { outcomes := outs,
    succeededCount := (outs.filter ItemOutcome.isSucceeded).length,
    failedCount := (outs.filter (fun o => !o.isSucceeded)).length }

/-! ## Document Store model (for persistence claims) -/

/-- Modelled from the spec: the Document Store "behaves as a key→blob map"
(spec §2) with last-write-wins puts (§4.1 side effects, §5). -/
def putStore (store : List (List Char × Json)) (k : List Char) (v : Json) :
    List (List Char × Json) :=
  if store.any (fun kv => kv.1 == k) then
    store.map (fun kv => if kv.1 == k then (k, v) else kv)
  else store ++ [(k, v)]

/-- Lookup in the Document Store map. -/
def getStore (store : List (List Char × Json)) (k : List Char) : Option Json :=
  (store.find? (fun kv => kv.1 == k)).map Prod.snd

/-- Apply a sequence of writes to the store, in order. -/
def applyWrites (store : List (List Char × Json))
    (ws : List (List Char × Json)) : List (List Char × Json) :=
  ws.foldl (fun st kv => putStore st kv.1 kv.2) store

/-! ## Spec-side predicates used to state the claims -/

/-- The allowed risk levels of the spec: HIGH, MEDIUM, LOW, UNKNOWN (as a JSON
string). -/
def riskAllowed : Json → Bool
  | .str s =>
      s == "HIGH".toList || s == "MEDIUM".toList || s == "LOW".toList
        || s == "UNKNOWN".toList
  | _ => false

/-- Whether the `lab_values` object of a summary binds some key to JSON null. -/
def labValuesHasNull (j : Json) : Bool :=
  match jGet j "lab_values".toList .null with
  | .obj fs => fs.any (fun kv => match kv.2 with | .null => true | _ => false)
  | _ => false

/-- Whether an object has a binding for a key. -/
def jHasKey (j : Json) (k : List Char) : Bool :=
  match j with
  | .obj fs => fs.any (fun kv => kv.1 == k)
  | _ => false

/-- The string value of a key in a JSON object, when it is a string. -/
def jGetStr (j : Json) (k : List Char) : Option (List Char) :=
  match jGet j k .null with
  | .str s => some s
  | _ => none

/-! ## Evaluation lemmas for the handler -/

theorem handler_fst (cfg : Config) (env : Env) (event : Event) :
    (handler cfg env event).1 = (handlerCore cfg env event).1 := rfl

theorem handler_snd (cfg : Config) (env : Env) (event : Event) :
    (handler cfg env event).2 =
      { (handlerCore cfg env event).2 with
        trackingRows :=
          (handlerCore cfg env event).2.trackingCalls.flatMap
            (trackingRowsFor cfg env.dynamoPut) } := rfl

theorem handlerCore_extract_error (cfg : Config) (env : Env) (event : Event)
    (bucket key : List Char) (e : PyErr)
    (hb : optTruthy event.bucket? = some bucket)
    (hk : optTruthy event.key? = some key)
    (hdoc : isDocKey key = true)
    (hext : env.extractResult = .error e) :
    handlerCore cfg env event =
      (.error e, failEffects env bucket key e Effects.none) := by
  simp [handlerCore, hb, hk, hdoc, hext]

theorem handlerCore_empty (cfg : Config) (env : Env) (event : Event)
    (bucket key text : List Char)
    (hb : optTruthy event.bucket? = some bucket)
    (hk : optTruthy event.key? = some key)
    (hdoc : isDocKey key = true)
    (hext : env.extractResult = .ok text)
    (hempty : pyStrip text = []) :
    handlerCore cfg env event =
      (.error EmptyDocumentError,
       failEffects env bucket key EmptyDocumentError Effects.none) := by
  simp [handlerCore, hb, hk, hdoc, hext, hempty]

theorem handlerCore_bedrock_error (cfg : Config) (env : Env) (event : Event)
    (bucket key text : List Char) (e : PyErr)
    (hb : optTruthy event.bucket? = some bucket)
    (hk : optTruthy event.key? = some key)
    (hdoc : isDocKey key = true)
    (hext : env.extractResult = .ok text)
    (hne : (pyStrip text).isEmpty = false)
    (hbr : env.bedrockResult = .error e) :
    handlerCore cfg env event =
      (.error e, failEffects env bucket key e
        (invokeEffects cfg text env.processingId)) := by
  simp [handlerCore, hb, hk, hdoc, hext, hne, hbr, invokeEffects]

theorem handlerCore_stamp_none (cfg : Config) (env : Env) (event : Event)
    (bucket key text raw : List Char)
    (hb : optTruthy event.bucket? = some bucket)
    (hk : optTruthy event.key? = some key)
    (hdoc : isDocKey key = true)
    (hext : env.extractResult = .ok text)
    (hne : (pyStrip text).isEmpty = false)
    (hbr : env.bedrockResult = .ok raw)
    (hst : stampSummary (parseModelOutput raw env.processingId (select_model cfg text))
             key env.generatedAt = none) :
    handlerCore cfg env event =
      (.error stampTypeError, failEffects env bucket key stampTypeError
        (invokeEffects cfg text env.processingId)) := by
  simp [handlerCore, hb, hk, hdoc, hext, hne, hbr, hst, invokeEffects]

theorem handlerCore_put_error (cfg : Config) (env : Env) (event : Event)
    (bucket key text raw : List Char) (body : Json) (e : PyErr)
    (hb : optTruthy event.bucket? = some bucket)
    (hk : optTruthy event.key? = some key)
    (hdoc : isDocKey key = true)
    (hext : env.extractResult = .ok text)
    (hne : (pyStrip text).isEmpty = false)
    (hbr : env.bedrockResult = .ok raw)
    (hst : stampSummary (parseModelOutput raw env.processingId (select_model cfg text))
             key env.generatedAt = some body)
    (hput : env.putSummary = .error e) :
    handlerCore cfg env event =
      (.error e, failEffects env bucket key e
        (invokeEffects cfg text env.processingId)) := by
  simp [handlerCore, hb, hk, hdoc, hext, hne, hbr, hst, hput, invokeEffects]

theorem handlerCore_success (cfg : Config) (env : Env) (event : Event)
    (bucket key text raw : List Char) (body : Json)
    (hb : optTruthy event.bucket? = some bucket)
    (hk : optTruthy event.key? = some key)
    (hdoc : isDocKey key = true)
    (hext : env.extractResult = .ok text)
    (hne : (pyStrip text).isEmpty = false)
    (hbr : env.bedrockResult = .ok raw)
    (hst : stampSummary (parseModelOutput raw env.processingId (select_model cfg text))
             key env.generatedAt = some body)
    (hput : env.putSummary = .ok ()) :
    handlerCore cfg env event =
      (.ok (.succeeded env.processingId key (summaryKey key)
              (jGet (parseModelOutput raw env.processingId (select_model cfg text))
                 "risk_level".toList (.str "UNKNOWN".toList))
              (select_model cfg text)),
       { invokeEffects cfg text env.processingId with
         summaryWrites := [(summaryKey key, body)],
         trackingCalls :=
           [{ document_id := key, processing_timestamp := env.timestamp,
              processing_id := env.processingId, status := "COMPLETED".toList,
              risk_level :=
                jGet (parseModelOutput raw env.processingId (select_model cfg text))
                  "risk_level".toList (.str "UNKNOWN".toList),
              model_used := some (select_model cfg text),
              summary_location := some (s3Url cfg.summaryBucket (summaryKey key)),
              confidence_score :=
                some (jGet (parseModelOutput raw env.processingId (select_model cfg text))
                        "confidence_score".toList (.str "UNKNOWN".toList)),
              error_message := Option.none }] }) := by
  simp [handlerCore, hb, hk, hdoc, hext, hne, hbr, hst, hput, invokeEffects]

theorem handlerCore_skipped (cfg : Config) (env : Env) (event : Event)
    (bucket key : List Char)
    (hb : optTruthy event.bucket? = some bucket)
    (hk : optTruthy event.key? = some key)
    (hdoc : isDocKey key = false) :
    handlerCore cfg env event =
      (.ok (.skipped "Not a supported document type".toList key), Effects.none) := by
  simp [handlerCore, hb, hk, hdoc]

/-! ## Concrete fixtures used by witnesses and counterexamples -/

/-- A routing-mode configuration (no fixed model, tracking table set). -/
def wCfg : Config :=
  { modelId? := none,
    defaultModel := "anthropic.claude-3-5-sonnet-20241022-v2:0".toList,
    fastModel := "anthropic.claude-3-5-haiku-20241022-v1:0".toList,
    summaryBucket := "summary-bucket".toList,
    failedBucket := "failed-bucket".toList,
    trackingTable? := some "lifeproof-ai-tracking".toList }

/-- A fixed-model configuration. -/
def wCfgFixed : Config := { wCfg with modelId? := some "model-x".toList }

/-- A well-formed triggering event for a text document. -/
def wEvent : Event :=
  { bucket? := some "ingest".toList, key? := some "uploads/doc1.txt".toList }

/-- An environment in which every external call succeeds and the model
returns schema-conforming JSON. -/
def wEnvOk : Env :=
  { extractResult := .ok "Patient reports well-controlled Type 2 Diabetes.".toList,
    bedrockResult := .ok "\x7b\"risk_level\": \"MEDIUM\", \"lab_values\": \x7b\"HbA1c\": \"7.2\"\x7d\x7d".toList,
    putSummary := .ok (), putFailed := .ok (), dynamoPut := .ok (),
    processingId := "pid-1".toList, timestamp := "ts-1".toList,
    generatedAt := "gen-1".toList, failedAt := "fail-1".toList }

/-! ## C8 — model selection -/

/-- C8: with a truthy fixed model override the Worker uses it unconditionally;
otherwise it estimates tokens as `len(text) / 4` and selects the fast model
strictly below 8000 estimated tokens and the capable model at or above it. -/
theorem C8_model_selection (cfg : Config) (text : List Char) :
    (∀ m, optTruthy cfg.modelId? = some m → select_model cfg text = m) ∧
    (optTruthy cfg.modelId? = none →
      estimate_tokens text = text.length / 4 ∧
      (estimate_tokens text < 8000 → select_model cfg text = cfg.fastModel) ∧
      (8000 ≤ estimate_tokens text → select_model cfg text = cfg.defaultModel)) := by
  constructor
  · intro m hm
    simp [select_model, hm]
  · intro hn
    refine ⟨rfl, ?_, ?_⟩
    · intro h
      simp only [select_model, hn, TOKEN_THRESHOLD]
      rw [if_pos h]
    · intro h
      simp only [select_model, hn, TOKEN_THRESHOLD]
      rw [if_neg (Nat.not_lt.mpr h)]

/-- Witness for C8 at concrete configurations: the override is returned
verbatim, and a 47-character document routes to the fast model. -/
theorem C8_model_selection_witness :
    optTruthy wCfgFixed.modelId? = some "model-x".toList ∧
    select_model wCfgFixed "abc".toList = "model-x".toList ∧
    optTruthy wCfg.modelId? = none ∧
    estimate_tokens "abc".toList < 8000 ∧
    select_model wCfg "abc".toList = wCfg.fastModel :=
  ⟨rfl, (C8_model_selection wCfgFixed "abc".toList).1 _ rfl, rfl, by decide,
    ((C8_model_selection wCfg "abc".toList).2 rfl).2.1 (by decide)⟩

/-! ## C4 — empty documents fail before the model call -/

/-- C4: a document whose extracted text is empty after stripping makes the
handler raise the empty-document error (`ValueError`, the EmptyDocumentError
of the spec taxonomy), with zero model invocations. -/
theorem C4_empty_document (cfg : Config) (env : Env) (event : Event)
    (bucket key text : List Char)
    (hb : optTruthy event.bucket? = some bucket)
    (hk : optTruthy event.key? = some key)
    (hdoc : isDocKey key = true)
    (hext : env.extractResult = .ok text)
    (hempty : pyStrip text = []) :
    (handler cfg env event).1 = .error EmptyDocumentError ∧
    (handler cfg env event).2.bedrockCalls = 0 ∧
    (handler cfg env event).2.prompts = [] := by
  have h := handlerCore_empty cfg env event bucket key text hb hk hdoc hext hempty
  refine ⟨?_, ?_, ?_⟩ <;>
    simp [handler, h, failEffects, Effects.none]

/-- An environment whose document is whitespace only. -/
def wEnvEmpty : Env := { wEnvOk with extractResult := .ok "  \n ".toList }

/-- Witness for C4: a whitespace-only document under the standard fixtures. -/
theorem C4_empty_document_witness :
    pyStrip "  \n ".toList = [] ∧
    (handler wCfg wEnvEmpty wEvent).1 = .error EmptyDocumentError ∧
    (handler wCfg wEnvEmpty wEvent).2.bedrockCalls = 0 :=
  ⟨by decide,
    (C4_empty_document wCfg wEnvEmpty wEvent "ingest".toList "uploads/doc1.txt".toList
      "  \n ".toList rfl rfl rfl rfl (by decide)).1,
    (C4_empty_document wCfg wEnvEmpty wEvent "ingest".toList "uploads/doc1.txt".toList
      "  \n ".toList rfl rfl rfl rfl (by decide)).2.1⟩

/-! ## C10 — audit-log failures never affect the outcome -/

set_option maxHeartbeats 1000000 in
/-- C10: the handler result is identical whatever the DynamoDB put outcome
and whether a tracking table is configured at all; with no table configured
no row is written, yet the invocation returns (or raises) exactly the same
value.  `update_tracking_table` never raises by construction
(`trackingRowsFor` is total). -/
theorem C10_audit_isolation (cfg : Config) (env : Env) (event : Event)
    (d : Except PyErr Unit) (t : Option (List Char)) :
    (handler cfg { env with dynamoPut := d } event).1 = (handler cfg env event).1 ∧
    (handler { cfg with trackingTable? := t } env event).1 = (handler cfg env event).1 ∧
    (optTruthy cfg.trackingTable? = none →
      (handler cfg env event).2.trackingRows = []) := by
  obtain ⟨ext, br, ps, pf, dp, pid, ts, ga, fa⟩ := env
  refine ⟨rfl, rfl, fun h => ?_⟩
  have : ∀ l : List TrackRecord,
      l.flatMap (trackingRowsFor cfg dp) = [] := by
    intro l
    induction l with
    | nil => rfl
    | cons a l ih => simp [List.flatMap_cons, trackingRowsFor, h, ih]
  simpa [handler] using
    this (handlerCore cfg ⟨ext, br, ps, pf, dp, pid, ts, ga, fa⟩ event).2.trackingCalls

/-- Witness for C10: a failing DynamoDB put and an unconfigured table leave
the concrete successful result unchanged, and the unconfigured table yields
no rows. -/
theorem C10_audit_isolation_witness :
    (handler wCfg { wEnvOk with dynamoPut := .error (.clientError "denied".toList) }
        wEvent).1 = (handler wCfg wEnvOk wEvent).1 ∧
    (handler { wCfg with trackingTable? := none } wEnvOk wEvent).1 =
      (handler wCfg wEnvOk wEvent).1 ∧
    optTruthy (none : Option (List Char)) = none ∧
    (handler { wCfg with trackingTable? := none } wEnvOk wEvent).2.trackingRows = [] :=
  ⟨(C10_audit_isolation wCfg wEnvOk wEvent (.error (.clientError "denied".toList))
      none).1,
   (C10_audit_isolation wCfg wEnvOk wEvent (.ok ()) none).2.1,
   rfl,
   (C10_audit_isolation { wCfg with trackingTable? := none } wEnvOk wEvent
      (.ok ()) none).2.2 rfl⟩

/-! ## C2 — malformed model output is converted, not raised -/

/-- A fenced, non-JSON model response. -/
def rawFenced : List Char := "\x60\x60\x60json not json".toList

/-- Counterexample to C2 as stated: for the fenced non-JSON response
`rawFenced`, the degraded summary preserves the fence-stripped text
`" not json"`, which is not the first 1000 characters of the raw response
(those start with the fence itself). -/
theorem C2_counterexample :
    parseJson (pyStrip (stripFences rawFenced)) = none ∧
    jGetStr (parseModelOutput rawFenced "pid-1".toList "mid-1".toList)
        "raw_response".toList = some " not json".toList ∧
    jGetStr (parseModelOutput rawFenced "pid-1".toList "mid-1".toList)
        "raw_response".toList ≠ some (rawFenced.take 1000) :=
  ⟨rfl, rfl, by decide⟩

/-- C2 (amended): when the model call succeeds but its output, after fence
stripping, is not valid JSON, the Worker does not raise: it returns the
degraded summary with `risk_level` UNKNOWN, an `error` field, and the first
1000 characters of the fence-stripped response preserved, and the handler
returns SUCCEEDED (no exception reaches the Orchestrator). -/
theorem C2_parse_failure_degraded (cfg : Config) (env : Env) (event : Event)
    (bucket key text raw : List Char)
    (hb : optTruthy event.bucket? = some bucket)
    (hk : optTruthy event.key? = some key)
    (hdoc : isDocKey key = true)
    (hext : env.extractResult = .ok text)
    (hne : (pyStrip text).isEmpty = false)
    (hbr : env.bedrockResult = .ok raw)
    (hparse : parseJson (pyStrip (stripFences raw)) = none)
    (hput : env.putSummary = .ok ()) :
    parseModelOutput raw env.processingId (select_model cfg text) =
      .obj [("processing_id".toList, .str env.processingId),
            ("risk_level".toList, .str "UNKNOWN".toList),
            ("error".toList, .str "Failed to parse AI response".toList),
            ("raw_response".toList, .str ((stripFences raw).take 1000)),
            ("model_used".toList, .str (select_model cfg text))] ∧
    (handler cfg env event).1 =
      .ok (.succeeded env.processingId key (summaryKey key)
        (.str "UNKNOWN".toList) (select_model cfg text)) := by
  have hdeg : parseModelOutput raw env.processingId (select_model cfg text) =
      .obj [("processing_id".toList, .str env.processingId),
            ("risk_level".toList, .str "UNKNOWN".toList),
            ("error".toList, .str "Failed to parse AI response".toList),
            ("raw_response".toList, .str ((stripFences raw).take 1000)),
            ("model_used".toList, .str (select_model cfg text))] := by
    simp [parseModelOutput, hparse]
  obtain ⟨body, hst⟩ : ∃ b,
      stampSummary (parseModelOutput raw env.processingId (select_model cfg text))
        key env.generatedAt = some b := by
    rw [hdeg]
    exact ⟨_, rfl⟩
  have hrl : jGet (parseModelOutput raw env.processingId (select_model cfg text))
      "risk_level".toList (.str "UNKNOWN".toList) = .str "UNKNOWN".toList := by
    rw [hdeg]
    rfl
  refine ⟨hdeg, ?_⟩
  rw [handler_fst,
    handlerCore_success cfg env event bucket key text raw body hb hk hdoc hext hne hbr hst hput,
    hrl]

/-- An environment whose model response is fenced non-JSON. -/
def wEnvParseFail : Env := { wEnvOk with bedrockResult := .ok rawFenced }

/-- Witness for C2 (amended): the concrete fenced non-JSON response yields a
SUCCEEDED result carrying risk UNKNOWN. -/
theorem C2_parse_failure_degraded_witness :
    parseJson (pyStrip (stripFences rawFenced)) = none ∧
    (handler wCfg wEnvParseFail wEvent).1 =
      .ok (.succeeded "pid-1".toList "uploads/doc1.txt".toList
        (summaryKey "uploads/doc1.txt".toList)
        (.str "UNKNOWN".toList)
        (select_model wCfg "Patient reports well-controlled Type 2 Diabetes.".toList)) :=
  ⟨rfl,
    (C2_parse_failure_degraded wCfg wEnvParseFail wEvent "ingest".toList
      "uploads/doc1.txt".toList
      "Patient reports well-controlled Type 2 Diabetes.".toList rawFenced
      rfl rfl rfl rfl (by decide) rfl rfl rfl).2⟩

/-! ## C7 — truncation of over-long documents -/

/-- The visible truncation marker without its framing newlines. -/
def TRUNC_CORE : List Char := "[...DOCUMENT TRUNCATED...]".toList

/-- Combined length of the fixed prompt-template pieces. -/
def promptOverheadLen : Nat :=
  PROMPT_P1.toList.length + UNDERWRITING_RUBRIC.toList.length
    + PROMPT_P2.toList.length + PROMPT_P3.toList.length
    + OUTPUT_SCHEMA.toList.length + PROMPT_P4.toList.length
    + PROMPT_P5.toList.length + PROMPT_P6.toList.length

/-- Prepending to a list preserves infixes. -/
theorem isInfix_append_left {x l : List Char} (c : List Char) (h : x <:+: l) :
    x <:+: c ++ l :=
  h.trans (List.suffix_append c l).isInfix

/-- C7: a document over the 150000-character cap is replaced in the prompt by
its first 75000 characters, the truncation marker, and its last 75000
characters, in that order; the marker appears in the prompt and the prompt
length is a constant independent of the document; a document at or under the
cap is passed unmodified. -/
theorem C7_truncation (text pid mid : List Char) :
    (text.length > MAX_INPUT_CHARS →
      truncateDoc text =
        text.take 75000 ++ TRUNCATION_MARKER.toList
          ++ text.drop (text.length - 75000) ∧
      TRUNC_CORE <:+: buildPrompt text pid mid ∧
      (buildPrompt text pid mid).length =
        promptOverheadLen + pid.length + mid.length + 150030) ∧
    (text.length ≤ MAX_INPUT_CHARS →
      truncateDoc text = text ∧ text <:+: buildPrompt text pid mid) := by
  have hm : TRUNCATION_MARKER.toList.length = 30 := by decide
  have h0 : truncateDoc text <:+: buildPrompt text pid mid :=
    ⟨PROMPT_P1.toList ++ UNDERWRITING_RUBRIC.toList ++ PROMPT_P2.toList,
     PROMPT_P3.toList ++ OUTPUT_SCHEMA.toList ++ PROMPT_P4.toList ++ pid
       ++ PROMPT_P5.toList ++ mid ++ PROMPT_P6.toList,
     by simp [buildPrompt, List.append_assoc]⟩
  constructor
  · intro h
    have htr : truncateDoc text =
        text.take 75000 ++ TRUNCATION_MARKER.toList
          ++ text.drop (text.length - 75000) := by
      unfold truncateDoc
      rw [if_pos h]
      norm_num [MAX_INPUT_CHARS]
    have m2 : TRUNCATION_MARKER.toList <:+: truncateDoc text := by
      rw [htr]
      exact ⟨text.take 75000, text.drop (text.length - 75000), rfl⟩
    have m1 : TRUNC_CORE <:+: TRUNCATION_MARKER.toList :=
      ⟨"\n\n".toList, "\n\n".toList, by decide⟩
    refine ⟨htr, (m1.trans m2).trans h0, ?_⟩
    have hcap : MAX_INPUT_CHARS < text.length := h
    simp only [MAX_INPUT_CHARS] at hcap
    unfold buildPrompt promptOverheadLen
    rw [htr]
    simp only [List.length_append, List.length_take, List.length_drop, hm]
    omega
  · intro h
    have htr : truncateDoc text = text := by
      unfold truncateDoc
      rw [if_neg (Nat.not_lt.mpr h)]
    refine ⟨htr, ?_⟩
    rw [htr] at h0
    exact h0

/-- Witness for C7: a 150001-character document gets the marker and the
constant prompt length; a 2-character document passes through unmodified. -/
theorem C7_truncation_witness :
    (List.replicate 150001 'a').length > MAX_INPUT_CHARS ∧
    TRUNC_CORE <:+:
      buildPrompt (List.replicate 150001 'a') "pid-1".toList "mid-1".toList ∧
    (buildPrompt (List.replicate 150001 'a') "pid-1".toList "mid-1".toList).length =
      promptOverheadLen + "pid-1".toList.length + "mid-1".toList.length + 150030 ∧
    "hi".toList.length ≤ MAX_INPUT_CHARS ∧
    truncateDoc "hi".toList = "hi".toList := by
  have h : (List.replicate 150001 'a').length > MAX_INPUT_CHARS := by
    rw [List.length_replicate, MAX_INPUT_CHARS]
    decide
  obtain ⟨-, h2, h3⟩ :=
    (C7_truncation (List.replicate 150001 'a') "pid-1".toList "mid-1".toList).1 h
  have h4 : "hi".toList.length ≤ MAX_INPUT_CHARS := by decide
  exact ⟨h, h2, h3, h4, ((C7_truncation "hi".toList "pid-1".toList "mid-1".toList).2 h4).1⟩

/-! ## C3 — non-malformed-output failures are persisted, tracked, re-raised -/

/-- C3: whenever the handler raises, the failure was persisted at
`failed/{basename}_error.json`, a FAILED tracking row carrying the truncated
message was written, and the original exception is what propagates; and a
parse failure of the model output alone never makes the handler raise — so
the handler raises exactly for the non-malformed-output failures. -/
theorem C3_failure_routing (cfg : Config) (env : Env) (event : Event)
    (bucket key tbl : List Char)
    (hb : optTruthy event.bucket? = some bucket)
    (hk : optTruthy event.key? = some key)
    (hdoc : isDocKey key = true)
    (htbl : optTruthy cfg.trackingTable? = some tbl)
    (hdyn : env.dynamoPut = .ok ())
    (hpf : env.putFailed = .ok ()) :
    (∀ e, (handler cfg env event).1 = .error e →
       (handler cfg env event).2.failedWrites.map Prod.fst = [failedKey key] ∧
       (handler cfg env event).2.trackingRows.map TrackRecord.status =
         ["FAILED".toList] ∧
       (handler cfg env event).2.trackingRows.map TrackRecord.error_message =
         [some ((errMsg e).take 500)]) ∧
    (∀ text raw, env.extractResult = .ok text → (pyStrip text).isEmpty = false →
       env.bedrockResult = .ok raw → parseJson (pyStrip (stripFences raw)) = none →
       env.putSummary = .ok () → ∃ r, (handler cfg env event).1 = .ok r) := by
  constructor
  · intro e herr
    cases hext : env.extractResult with
    | error e0 =>
      have h := handlerCore_extract_error cfg env event bucket key e0 hb hk hdoc hext
      simp only [handler_fst, h] at herr
      injection herr with he
      subst he
      refine ⟨?_, ?_, ?_⟩ <;>
        simp [handler, h, failEffects, failRecord, trackingRowsFor, htbl, hdyn,
          hpf, Effects.none]
    | ok text =>
      cases hstrip : (pyStrip text).isEmpty with
      | true =>
        have hempty : pyStrip text = [] := by simpa using hstrip
        have h := handlerCore_empty cfg env event bucket key text hb hk hdoc hext hempty
        simp only [handler_fst, h] at herr
        injection herr with he
        subst he
        refine ⟨?_, ?_, ?_⟩ <;>
          simp [handler, h, failEffects, failRecord, trackingRowsFor, htbl, hdyn,
            hpf, Effects.none]
      | false =>
        cases hbr : env.bedrockResult with
        | error e0 =>
          have h := handlerCore_bedrock_error cfg env event bucket key text e0
            hb hk hdoc hext hstrip hbr
          simp only [handler_fst, h] at herr
          injection herr with he
          subst he
          refine ⟨?_, ?_, ?_⟩ <;>
            simp [handler, h, failEffects, failRecord, trackingRowsFor, htbl, hdyn,
              hpf, invokeEffects, Effects.none]
        | ok raw =>
          cases hst : stampSummary
              (parseModelOutput raw env.processingId (select_model cfg text))
              key env.generatedAt with
          | none =>
            have h := handlerCore_stamp_none cfg env event bucket key text raw
              hb hk hdoc hext hstrip hbr hst
            simp only [handler_fst, h] at herr
            injection herr with he
            subst he
            refine ⟨?_, ?_, ?_⟩ <;>
              simp [handler, h, failEffects, failRecord, trackingRowsFor, htbl,
                hdyn, hpf, invokeEffects, Effects.none]
          | some body =>
            cases hput : env.putSummary with
            | error e0 =>
              have h := handlerCore_put_error cfg env event bucket key text raw
                body e0 hb hk hdoc hext hstrip hbr hst hput
              simp only [handler_fst, h] at herr
              injection herr with he
              subst he
              refine ⟨?_, ?_, ?_⟩ <;>
                simp [handler, h, failEffects, failRecord, trackingRowsFor, htbl,
                  hdyn, hpf, invokeEffects, Effects.none]
            | ok u =>
              cases u
              have h := handlerCore_success cfg env event bucket key text raw
                body hb hk hdoc hext hstrip hbr hst hput
              simp only [handler_fst, h] at herr
              exact Except.noConfusion herr
  · intro text raw hext hne hbr hparse hput
    have hdeg : parseModelOutput raw env.processingId (select_model cfg text) =
        .obj [("processing_id".toList, .str env.processingId),
              ("risk_level".toList, .str "UNKNOWN".toList),
              ("error".toList, .str "Failed to parse AI response".toList),
              ("raw_response".toList, .str ((stripFences raw).take 1000)),
              ("model_used".toList, .str (select_model cfg text))] := by
      simp [parseModelOutput, hparse]
    obtain ⟨body, hst⟩ : ∃ b,
        stampSummary (parseModelOutput raw env.processingId (select_model cfg text))
          key env.generatedAt = some b := by
      rw [hdeg]
      exact ⟨_, rfl⟩
    exact ⟨_, by
      rw [handler_fst, handlerCore_success cfg env event bucket key text raw body
        hb hk hdoc hext hne hbr hst hput]⟩

/-- An environment whose storage read fails with an access error. -/
def wEnvGetFail : Env :=
  { wEnvOk with extractResult := .error (.clientError "AccessDenied".toList) }

/-- Witness for C3: a failing storage read is persisted to the failed area,
tracked as FAILED, and re-raised; the parse-failure environment raises
nothing. -/
theorem C3_failure_routing_witness :
    (handler wCfg wEnvGetFail wEvent).1 =
      .error (.clientError "AccessDenied".toList) ∧
    (handler wCfg wEnvGetFail wEvent).2.failedWrites.map Prod.fst =
      [failedKey "uploads/doc1.txt".toList] ∧
    (handler wCfg wEnvGetFail wEvent).2.trackingRows.map TrackRecord.status =
      ["FAILED".toList] ∧
    (∃ r, (handler wCfg wEnvParseFail wEvent).1 = .ok r) := by
  have h := C3_failure_routing wCfg wEnvGetFail wEvent "ingest".toList
    "uploads/doc1.txt".toList "lifeproof-ai-tracking".toList
    rfl rfl rfl rfl rfl rfl
  have herr : (handler wCfg wEnvGetFail wEvent).1 =
      .error (.clientError "AccessDenied".toList) := rfl
  obtain ⟨h1, h2, -⟩ := h.1 _ herr
  refine ⟨herr, h1, h2, ?_⟩
  exact (C3_failure_routing wCfg wEnvParseFail wEvent "ingest".toList
    "uploads/doc1.txt".toList "lifeproof-ai-tracking".toList
    rfl rfl rfl rfl rfl rfl).2
    "Patient reports well-controlled Type 2 Diabetes.".toList rawFenced
    rfl (by decide) rfl rfl rfl

/-! ## C5 — one tracking row per processing invocation -/

/-- An event whose key has an unsupported suffix. -/
def wEventCsv : Event :=
  { bucket? := some "ingest".toList, key? := some "uploads/data.csv".toList }

/-- Counterexample to C5 as stated: an invocation on a `.csv` key is a Worker
invocation, but it is skipped and writes no tracking entry at all. -/
theorem C5_counterexample :
    (handler wCfg wEnvOk wEventCsv).1 =
      .ok (.skipped "Not a supported document type".toList
        "uploads/data.csv".toList) ∧
    (handler wCfg wEnvOk wEventCsv).2.trackingCalls = [] ∧
    (handler wCfg wEnvOk wEventCsv).2.trackingRows = [] :=
  ⟨rfl, rfl, rfl⟩

/-- C5 (amended): every Worker invocation that passes event validation and
the document-type filter passes exactly one record to the audit write, and —
when the tracking table is configured and the put succeeds — exactly one row
is persisted: COMPLETED exactly when the invocation returns normally, else
FAILED with the propagated error message truncated to at most 500
characters. -/
theorem C5_tracking_rows (cfg : Config) (env : Env) (event : Event)
    (bucket key tbl : List Char)
    (hb : optTruthy event.bucket? = some bucket)
    (hk : optTruthy event.key? = some key)
    (hdoc : isDocKey key = true)
    (htbl : optTruthy cfg.trackingTable? = some tbl)
    (hdyn : env.dynamoPut = .ok ()) :
    ∃ r, (handler cfg env event).2.trackingCalls = [r] ∧
         (handler cfg env event).2.trackingRows = [r] ∧
         r.document_id = key ∧
         r.processing_id = env.processingId ∧
         (∀ m, r.error_message = some m → m.length ≤ 500) ∧
         ((r.status = "COMPLETED".toList ∧
             ∃ hr, (handler cfg env event).1 = .ok hr) ∨
          (∃ e, r.status = "FAILED".toList ∧
             (handler cfg env event).1 = .error e ∧
             r.error_message = some ((errMsg e).take 500) ∧
             r.risk_level = .str "ERROR".toList)) := by
  have hlen : ∀ (r : TrackRecord) (e : PyErr),
      r = failRecord key env.timestamp env.processingId e →
      ∀ m, r.error_message = some m → m.length ≤ 500 := by
    rintro r e rfl m hm
    simp only [failRecord, Option.some.injEq] at hm
    subst hm
    exact (List.length_take_le 500 (errMsg e)).trans (le_refl 500)
  cases hext : env.extractResult with
  | error e0 =>
    have h := handlerCore_extract_error cfg env event bucket key e0 hb hk hdoc hext
    refine ⟨failRecord key env.timestamp env.processingId e0, ?_, ?_,
      rfl, rfl, hlen _ e0 rfl, Or.inr ⟨e0, rfl, ?_, rfl, rfl⟩⟩
    · simp [handler, h, failEffects]
    · simp [handler, h, failEffects, trackingRowsFor, htbl, hdyn]
    · simp [handler_fst, h]
  | ok text =>
    cases hstrip : (pyStrip text).isEmpty with
    | true =>
      have hempty : pyStrip text = [] := by simpa using hstrip
      have h := handlerCore_empty cfg env event bucket key text hb hk hdoc hext hempty
      refine ⟨failRecord key env.timestamp env.processingId EmptyDocumentError,
        ?_, ?_, rfl, rfl, hlen _ EmptyDocumentError rfl,
        Or.inr ⟨EmptyDocumentError, rfl, ?_, rfl, rfl⟩⟩
      · simp [handler, h, failEffects]
      · simp [handler, h, failEffects, trackingRowsFor, htbl, hdyn]
      · simp [handler_fst, h]
    | false =>
      cases hbr : env.bedrockResult with
      | error e0 =>
        have h := handlerCore_bedrock_error cfg env event bucket key text e0
          hb hk hdoc hext hstrip hbr
        refine ⟨failRecord key env.timestamp env.processingId e0, ?_, ?_,
          rfl, rfl, hlen _ e0 rfl, Or.inr ⟨e0, rfl, ?_, rfl, rfl⟩⟩
        · simp [handler, h, failEffects, invokeEffects]
        · simp [handler, h, failEffects, invokeEffects, trackingRowsFor, htbl, hdyn]
        · simp [handler_fst, h]
      | ok raw =>
        cases hst : stampSummary
            (parseModelOutput raw env.processingId (select_model cfg text))
            key env.generatedAt with
        | none =>
          have h := handlerCore_stamp_none cfg env event bucket key text raw
            hb hk hdoc hext hstrip hbr hst
          refine ⟨failRecord key env.timestamp env.processingId stampTypeError,
            ?_, ?_, rfl, rfl, hlen _ stampTypeError rfl,
            Or.inr ⟨stampTypeError, rfl, ?_, rfl, rfl⟩⟩
          · simp [handler, h, failEffects, invokeEffects]
          · simp [handler, h, failEffects, invokeEffects, trackingRowsFor, htbl, hdyn]
          · simp [handler_fst, h]
        | some body =>
          cases hput : env.putSummary with
          | error e0 =>
            have h := handlerCore_put_error cfg env event bucket key text raw
              body e0 hb hk hdoc hext hstrip hbr hst hput
            refine ⟨failRecord key env.timestamp env.processingId e0, ?_, ?_,
              rfl, rfl, hlen _ e0 rfl, Or.inr ⟨e0, rfl, ?_, rfl, rfl⟩⟩
            · simp [handler, h, failEffects, invokeEffects]
            · simp [handler, h, failEffects, invokeEffects, trackingRowsFor, htbl, hdyn]
            · simp [handler_fst, h]
          | ok u =>
            cases u
            have h := handlerCore_success cfg env event bucket key text raw
              body hb hk hdoc hext hstrip hbr hst hput
            let trec : TrackRecord :=
              { document_id := key, processing_timestamp := env.timestamp,
                processing_id := env.processingId, status := "COMPLETED".toList,
                risk_level :=
                  jGet (parseModelOutput raw env.processingId (select_model cfg text))
                    "risk_level".toList (.str "UNKNOWN".toList),
                model_used := some (select_model cfg text),
                summary_location := some (s3Url cfg.summaryBucket (summaryKey key)),
                confidence_score :=
                  some (jGet (parseModelOutput raw env.processingId
                          (select_model cfg text))
                        "confidence_score".toList (.str "UNKNOWN".toList)),
                error_message := Option.none }
            refine ⟨trec, ?_, ?_, rfl, rfl, ?_, Or.inl ⟨rfl, ?_⟩⟩
            · simp [handler, h, invokeEffects]
              rfl
            · simp [handler, h, invokeEffects, trackingRowsFor, htbl, hdyn]
              rfl
            · intro m hm
              exact Option.noConfusion hm
            · exact ⟨_, by rw [handler_fst, h]⟩

/-- Witness for C5 (amended): the fully successful fixture yields exactly one
COMPLETED row. -/
theorem C5_tracking_rows_witness :
    ∃ r, (handler wCfg wEnvOk wEvent).2.trackingCalls = [r] ∧
         (handler wCfg wEnvOk wEvent).2.trackingRows = [r] ∧
         r.document_id = "uploads/doc1.txt".toList ∧
         r.processing_id = wEnvOk.processingId ∧
         (∀ m, r.error_message = some m → m.length ≤ 500) ∧
         ((r.status = "COMPLETED".toList ∧
             ∃ hr, (handler wCfg wEnvOk wEvent).1 = .ok hr) ∨
          (∃ e, r.status = "FAILED".toList ∧
             (handler wCfg wEnvOk wEvent).1 = .error e ∧
             r.error_message = some ((errMsg e).take 500) ∧
             r.risk_level = .str "ERROR".toList)) :=
  C5_tracking_rows wCfg wEnvOk wEvent "ingest".toList "uploads/doc1.txt".toList
    "lifeproof-ai-tracking".toList rfl rfl rfl rfl rfl

/-! ## C6 — the Worker does not schema-check the model output -/

/-- `lookupLast` distributes over append, preferring the right list. -/
theorem lookupLast_append (l₁ l₂ : List (List Char × Json)) (k : List Char) :
    lookupLast (l₁ ++ l₂) k =
      match lookupLast l₂ k with
      | some v => some v
      | none => lookupLast l₁ k := by
  induction l₁ with
  | nil =>
    simp only [List.nil_append, lookupLast]
    cases lookupLast l₂ k <;> rfl
  | cons kv rest ih =>
    show (match lookupLast (rest ++ l₂) k with
          | some v => some v
          | none => if kv.1 == k then some kv.2 else none) =
        (match lookupLast l₂ k with
         | some v => some v
         | none =>
             match lookupLast rest k with
             | some v => some v
             | none => if kv.1 == k then some kv.2 else none)
    rw [ih]
    cases lookupLast l₂ k <;> cases lookupLast rest k <;> rfl

/-- Overwrite-map of one key preserves lookups of the others. -/
theorem lookupLast_mapReplace (fields : List (List Char × Json))
    (k k' : List Char) (v : Json) (h : (k' == k) = false) :
    lookupLast (fields.map (fun kv => if kv.1 == k' then (k', v) else kv)) k =
      lookupLast fields k := by
  induction fields with
  | nil => rfl
  | cons kv rest ih =>
    obtain ⟨k1, v1⟩ := kv
    show (match lookupLast (rest.map (fun kv => if kv.1 == k' then (k', v) else kv)) k with
          | some w => some w
          | none =>
              if (if (k1, v1).1 == k' then (k', v) else (k1, v1)).1 == k then
                some (if (k1, v1).1 == k' then (k', v) else (k1, v1)).2
              else none) =
        (match lookupLast rest k with
         | some w => some w
         | none => if k1 == k then some v1 else none)
    rw [ih]
    cases lookupLast rest k with
    | some w => rfl
    | none =>
      by_cases hkv : ((k1, v1).1 == k') = true
      · have hk1 : k1 = k' := by simpa using hkv
        subst hk1
        rw [if_pos hkv]
        simp [h]
      · rw [if_neg hkv]

/-- `setField` on one key preserves lookups of every other key. -/
theorem lookupLast_setField_ne (fields : List (List Char × Json))
    (k k' : List Char) (v : Json) (h : (k' == k) = false) :
    lookupLast (setField fields k' v) k = lookupLast fields k := by
  unfold setField
  by_cases hany : (fields.any (fun kv => kv.1 == k')) = true
  · simp only [hany, if_true]
    exact lookupLast_mapReplace fields k k' v h
  · rw [if_neg hany, lookupLast_append]
    simp [lookupLast, h]

/-- Item assignment on one key preserves reads of every other key. -/
theorem jGet_jSet_ne (j j' : Json) (k k' : List Char) (v d : Json)
    (hne : (k' == k) = false) (hs : jSet j k' v = some j') :
    jGet j' k d = jGet j k d := by
  cases j with
  | obj fields =>
    simp only [jSet, Option.some.injEq] at hs
    subst hs
    simp only [jGet]
    rw [lookupLast_setField_ne fields k k' v hne]
  | null => exact absurd hs (by simp [jSet])
  | bool b => exact absurd hs (by simp [jSet])
  | num s => exact absurd hs (by simp [jSet])
  | str s => exact absurd hs (by simp [jSet])
  | arr xs => exact absurd hs (by simp [jSet])

/-- Stamping `original_document` and `generated_at` never touches
`lab_values`. -/
theorem labValuesHasNull_stamp (summary body : Json) (key genAt : List Char)
    (hs : stampSummary summary key genAt = some body) :
    labValuesHasNull body = labValuesHasNull summary := by
  unfold stampSummary at hs
  cases h1 : jSet summary "original_document".toList (.str key) with
  | none =>
    rw [h1] at hs
    simp at hs
  | some mid =>
    rw [h1] at hs
    simp only [Option.some_bind] at hs
    unfold labValuesHasNull
    rw [jGet_jSet_ne mid body _ _ _ .null (by decide) hs,
      jGet_jSet_ne summary mid _ _ _ .null (by decide) h1]

/-- A syntactically valid but schema-violating model response. -/
def rawBanana : List Char :=
  "\x7b\"risk_level\": \"BANANA\", \"lab_values\": \x7b\"HbA1c\": null\x7d\x7d".toList

/-- An environment whose model response is valid JSON violating the schema. -/
def wEnvBanana : Env := { wEnvOk with bedrockResult := .ok rawBanana }

/-- Counterexample to C6 as stated: a parseable model output with
`risk_level: "BANANA"` and a null `lab_values` entry passes through the
Worker unvalidated — the handler reports risk BANANA (not in the allowed
set) and persists a summary with a null lab value. -/
theorem C6_counterexample :
    parseJson (pyStrip (stripFences rawBanana)) =
      some (.obj [("risk_level".toList, .str "BANANA".toList),
                  ("lab_values".toList, .obj [("HbA1c".toList, .null)])]) ∧
    (handler wCfg wEnvBanana wEvent).1 =
      .ok (.succeeded "pid-1".toList "uploads/doc1.txt".toList
        "summaries/doc1_summary.json".toList (.str "BANANA".toList)
        wCfg.fastModel) ∧
    riskAllowed (.str "BANANA".toList) = false ∧
    (handler wCfg wEnvBanana wEvent).2.summaryWrites.map
        (fun kv => labValuesHasNull kv.2) = [true] :=
  ⟨rfl, rfl, rfl, rfl⟩

/-- C6 (amended): the Worker performs no schema validation: when the model
output parses as a JSON object, that object is returned verbatim, its
`risk_level` is reported as-is, and the persisted summary has a null lab
value exactly when the model output does — so the claimed invariant holds
precisely when the model output satisfies it (the parse-failure path is the
only one that forces `risk_level` to UNKNOWN). -/
theorem C6_no_validation_passthrough (cfg : Config) (env : Env) (event : Event)
    (bucket key text raw : List Char) (fields : List (List Char × Json))
    (hb : optTruthy event.bucket? = some bucket)
    (hk : optTruthy event.key? = some key)
    (hdoc : isDocKey key = true)
    (hext : env.extractResult = .ok text)
    (hne : (pyStrip text).isEmpty = false)
    (hbr : env.bedrockResult = .ok raw)
    (hparse : parseJson (pyStrip (stripFences raw)) = some (.obj fields))
    (hput : env.putSummary = .ok ()) :
    parseModelOutput raw env.processingId (select_model cfg text) = .obj fields ∧
    (handler cfg env event).1 =
      .ok (.succeeded env.processingId key (summaryKey key)
        (jGet (.obj fields) "risk_level".toList (.str "UNKNOWN".toList))
        (select_model cfg text)) ∧
    (handler cfg env event).2.summaryWrites.map (fun kv => labValuesHasNull kv.2)
      = [labValuesHasNull (.obj fields)] := by
  have hm : parseModelOutput raw env.processingId (select_model cfg text)
      = .obj fields := by
    simp [parseModelOutput, hparse]
  have hst : stampSummary
      (parseModelOutput raw env.processingId (select_model cfg text)) key
      env.generatedAt =
      some (.obj (setField
        (setField fields "original_document".toList (.str key))
        "generated_at".toList (.str env.generatedAt))) := by
    rw [hm]
    rfl
  have h := handlerCore_success cfg env event bucket key text raw _
    hb hk hdoc hext hne hbr hst hput
  have hlab := labValuesHasNull_stamp (.obj fields)
    (.obj (setField (setField fields "original_document".toList (.str key))
      "generated_at".toList (.str env.generatedAt))) key env.generatedAt rfl
  refine ⟨hm, ?_, ?_⟩
  · rw [handler_fst, h, hm]
  · simp only [handler, handler_snd, h, invokeEffects, List.map_cons, List.map_nil]
    exact congrArg (fun b => [b]) hlab

/-- Witness for C6 (amended): a schema-conforming model output passes
through with its MEDIUM risk level and no null lab value. -/
theorem C6_no_validation_passthrough_witness :
    parseJson (pyStrip (stripFences
        "\x7b\"risk_level\": \"MEDIUM\", \"lab_values\": \x7b\"HbA1c\": \"7.2\"\x7d\x7d".toList)) =
      some (.obj [("risk_level".toList, .str "MEDIUM".toList),
                  ("lab_values".toList, .obj [("HbA1c".toList, .str "7.2".toList)])]) ∧
    (handler wCfg wEnvOk wEvent).1 =
      .ok (.succeeded "pid-1".toList "uploads/doc1.txt".toList
        (summaryKey "uploads/doc1.txt".toList)
        (jGet (.obj [("risk_level".toList, .str "MEDIUM".toList),
                     ("lab_values".toList, .obj [("HbA1c".toList, .str "7.2".toList)])])
          "risk_level".toList (.str "UNKNOWN".toList))
        (select_model wCfg "Patient reports well-controlled Type 2 Diabetes.".toList)) ∧
    (handler wCfg wEnvOk wEvent).2.summaryWrites.map (fun kv => labValuesHasNull kv.2)
      = [labValuesHasNull (.obj [("risk_level".toList, .str "MEDIUM".toList),
            ("lab_values".toList, .obj [("HbA1c".toList, .str "7.2".toList)])])] ∧
    riskAllowed (.str "MEDIUM".toList) = true :=
  have h := C6_no_validation_passthrough wCfg wEnvOk wEvent "ingest".toList
    "uploads/doc1.txt".toList
    "Patient reports well-controlled Type 2 Diabetes.".toList
    "\x7b\"risk_level\": \"MEDIUM\", \"lab_values\": \x7b\"HbA1c\": \"7.2\"\x7d\x7d".toList
    [("risk_level".toList, .str "MEDIUM".toList),
     ("lab_values".toList, .obj [("HbA1c".toList, .str "7.2".toList)])]
    rfl rfl rfl rfl (by decide) rfl rfl rfl
  ⟨rfl, h.2.1, h.2.2, rfl⟩

/-! ## C9 — deterministic, idempotent output key derivation -/

/-- `takeWhile` runs through a satisfying prefix and stops at the first
failing element. -/
theorem takeWhile_append_of (p : Char → Bool) (l₁ : List Char) (a : Char)
    (l₂ : List Char) (h1 : ∀ c ∈ l₁, p c = true) (ha : p a = false) :
    (l₁ ++ a :: l₂).takeWhile p = l₁ := by
  induction l₁ with
  | nil => simp [List.takeWhile, ha]
  | cons c rest ih =>
    have hc : p c = true := h1 c (by simp)
    simp only [List.cons_append, List.takeWhile, hc]
    exact congrArg (fun l => c :: l) (ih (fun c hcm => h1 c (by simp [hcm])))

/-- `dropWhile` drops a satisfying prefix and stops at the first failing
element. -/
theorem dropWhile_append_of (p : Char → Bool) (l₁ : List Char) (a : Char)
    (l₂ : List Char) (h1 : ∀ c ∈ l₁, p c = true) (ha : p a = false) :
    (l₁ ++ a :: l₂).dropWhile p = a :: l₂ := by
  induction l₁ with
  | nil => simp [List.dropWhile, ha]
  | cons c rest ih =>
    have hc : p c = true := h1 c (by simp)
    simp only [List.cons_append, List.dropWhile, hc]
    exact ih (fun c hcm => h1 c (by simp [hcm]))

/-- `basename` strips the leading path (up to the last slash) and the
trailing extension (after the last dot). -/
theorem basename_strips (dir stem ext : List Char)
    (hstem : '/' ∉ stem) (hext1 : '/' ∉ ext) (hext2 : '.' ∉ ext) :
    basename (dir ++ '/' :: (stem ++ '.' :: ext)) = stem := by
  have hseg : lastSlashSegment (dir ++ '/' :: (stem ++ '.' :: ext))
      = stem ++ '.' :: ext := by
    unfold lastSlashSegment
    have hrev : (dir ++ '/' :: (stem ++ '.' :: ext)).reverse
        = (stem ++ '.' :: ext).reverse ++ '/' :: dir.reverse := by
      simp [List.reverse_append]
    rw [hrev, takeWhile_append_of _ _ _ _ ?h1 (by decide), List.reverse_reverse]
    case h1 =>
      intro c hc
      rw [List.mem_reverse] at hc
      have : c ≠ '/' := by
        rintro rfl
        rcases List.mem_append.mp hc with h | h
        · exact hstem h
        · rcases List.mem_cons.mp h with h | h
          · exact absurd h (by decide)
          · exact hext1 h
      simpa using this
  unfold basename
  rw [hseg]
  unfold stripLastExtension
  have hcont : (stem ++ '.' :: ext).contains '.' = true := by
    simp [List.contains]
  rw [if_pos hcont]
  have hrev : (stem ++ '.' :: ext).reverse = ext.reverse ++ '.' :: stem.reverse := by
    simp [List.reverse_append]
  rw [hrev, dropWhile_append_of _ _ _ _ ?h2 (by decide), List.drop_one,
    List.tail_cons, List.reverse_reverse]
  case h2 =>
    intro c hc
    rw [List.mem_reverse] at hc
    have : c ≠ '.' := by
      rintro rfl
      exact hext2 hc
    simpa using this

/-- `find?` skips an unmatched first list. -/
theorem find?_append_none {α : Type} (p : α → Bool) (l₁ l₂ : List α)
    (h : l₁.find? p = none) :
    (l₁ ++ l₂).find? p = l₂.find? p := by
  induction l₁ with
  | nil => rfl
  | cons a rest ih =>
    cases hpa : p a with
    | true => simp [List.find?_cons, hpa] at h
    | false =>
      simp only [List.find?_cons, hpa] at h
      simp only [List.cons_append, List.find?_cons, hpa]
      exact ih h

/-- Overwriting an existing key makes `find?` return the new pair. -/
theorem find?_mapReplace (rest : List (List Char × Json)) (k : List Char)
    (v : Json) (hany : (rest.any (fun kv => kv.1 == k)) = true) :
    (rest.map (fun kv => if kv.1 == k then (k, v) else kv)).find?
      (fun kv => kv.1 == k) = some (k, v) := by
  induction rest with
  | nil => simp at hany
  | cons kv0 tail ih =>
    obtain ⟨k1, v1⟩ := kv0
    rw [List.map_cons]
    by_cases hkv : ((k1, v1).1 == k) = true
    · rw [if_pos hkv]
      simp [List.find?]
    · rw [if_neg hkv]
      have hkvf : ((k1, v1).1 == k) = false := by
        cases hq : ((k1, v1).1 == k) with
        | true => exact absurd hq hkv
        | false => rfl
      simp only [List.find?, hkvf]
      apply ih
      simp only [List.any_cons, hkvf, Bool.false_or] at hany
      exact hany

/-- A put makes the key read back as the value just written. -/
theorem getStore_putStore_self (store : List (List Char × Json))
    (k : List Char) (v : Json) :
    getStore (putStore store k v) k = some v := by
  unfold putStore getStore
  by_cases hany : (store.any (fun kv => kv.1 == k)) = true
  · rw [if_pos hany, find?_mapReplace store k v hany]
    rfl
  · rw [if_neg hany]
    have hnone : store.find? (fun kv => kv.1 == k) = none := by
      rw [List.find?_eq_none]
      intro x hx
      intro hpx
      exact hany (List.any_of_mem hx hpx)
    rw [find?_append_none _ _ _ hnone]
    simp [List.find?]

/-- C9: the summary is persisted at `summaries/{basename(key)}_summary.json`
— a deterministic function of the input key alone, with basename stripping
the leading path and the trailing extension — so two successful runs on the
same key write to the same store key and the second write wins. -/
theorem C9_output_key_idempotent (cfg : Config) (env1 env2 : Env) (event : Event)
    (bucket key text1 raw1 text2 raw2 : List Char) (body1 body2 : Json)
    (store : List (List Char × Json))
    (hb : optTruthy event.bucket? = some bucket)
    (hk : optTruthy event.key? = some key)
    (hdoc : isDocKey key = true)
    (hext1 : env1.extractResult = .ok text1)
    (hne1 : (pyStrip text1).isEmpty = false)
    (hbr1 : env1.bedrockResult = .ok raw1)
    (hst1 : stampSummary (parseModelOutput raw1 env1.processingId
        (select_model cfg text1)) key env1.generatedAt = some body1)
    (hput1 : env1.putSummary = .ok ())
    (hext2 : env2.extractResult = .ok text2)
    (hne2 : (pyStrip text2).isEmpty = false)
    (hbr2 : env2.bedrockResult = .ok raw2)
    (hst2 : stampSummary (parseModelOutput raw2 env2.processingId
        (select_model cfg text2)) key env2.generatedAt = some body2)
    (hput2 : env2.putSummary = .ok ()) :
    (handler cfg env1 event).2.summaryWrites = [(summaryKey key, body1)] ∧
    (handler cfg env2 event).2.summaryWrites = [(summaryKey key, body2)] ∧
    summaryKey key =
      "summaries/".toList ++ basename key ++ "_summary.json".toList ∧
    (∀ dir stem ext : List Char, '/' ∉ stem → '/' ∉ ext → '.' ∉ ext →
       basename (dir ++ '/' :: (stem ++ '.' :: ext)) = stem) ∧
    getStore
      (applyWrites (applyWrites store (handler cfg env1 event).2.summaryWrites)
        (handler cfg env2 event).2.summaryWrites) (summaryKey key) = some body2 := by
  have h1 := handlerCore_success cfg env1 event bucket key text1 raw1 body1
    hb hk hdoc hext1 hne1 hbr1 hst1 hput1
  have h2 := handlerCore_success cfg env2 event bucket key text2 raw2 body2
    hb hk hdoc hext2 hne2 hbr2 hst2 hput2
  have hw1 : (handler cfg env1 event).2.summaryWrites = [(summaryKey key, body1)] := by
    simp [handler, h1, invokeEffects]
  have hw2 : (handler cfg env2 event).2.summaryWrites = [(summaryKey key, body2)] := by
    simp [handler, h2, invokeEffects]
  refine ⟨hw1, hw2, rfl, basename_strips, ?_⟩
  rw [hw1, hw2]
  show getStore (putStore (putStore store (summaryKey key) body1)
    (summaryKey key) body2) (summaryKey key) = some body2
  exact getStore_putStore_self _ _ _

/-- A second successful environment for the same document (fresh processing
metadata, different model output). -/
def wEnvOk2 : Env :=
  { wEnvOk with
    bedrockResult := .ok "\x7b\"risk_level\": \"LOW\"\x7d".toList,
    processingId := "pid-2".toList, timestamp := "ts-2".toList,
    generatedAt := "gen-2".toList }

/-- Witness for C9: two successful runs on `uploads/doc1.txt` write to the
same derived key, and reading the store back yields the second body. -/
theorem C9_output_key_idempotent_witness :
    (handler wCfg wEnvOk wEvent).2.summaryWrites.map Prod.fst =
      [summaryKey "uploads/doc1.txt".toList] ∧
    (handler wCfg wEnvOk2 wEvent).2.summaryWrites.map Prod.fst =
      [summaryKey "uploads/doc1.txt".toList] ∧
    summaryKey "uploads/doc1.txt".toList =
      "summaries/doc1_summary.json".toList ∧
    basename ("uploads".toList ++ '/' :: ("doc1".toList ++ '.' :: "txt".toList)) =
      "doc1".toList ∧
    (∃ b, (handler wCfg wEnvOk2 wEvent).2.summaryWrites =
        [(summaryKey "uploads/doc1.txt".toList, b)] ∧
      getStore
        (applyWrites
          (applyWrites [] (handler wCfg wEnvOk wEvent).2.summaryWrites)
          (handler wCfg wEnvOk2 wEvent).2.summaryWrites)
        (summaryKey "uploads/doc1.txt".toList) = some b) := by
  have h := C9_output_key_idempotent wCfg wEnvOk wEnvOk2 wEvent "ingest".toList
    "uploads/doc1.txt".toList
    "Patient reports well-controlled Type 2 Diabetes.".toList
    "\x7b\"risk_level\": \"MEDIUM\", \"lab_values\": \x7b\"HbA1c\": \"7.2\"\x7d\x7d".toList
    "Patient reports well-controlled Type 2 Diabetes.".toList
    "\x7b\"risk_level\": \"LOW\"\x7d".toList
    _ _ [] rfl rfl rfl rfl (by decide) rfl rfl rfl rfl (by decide) rfl rfl rfl
  obtain ⟨h1, h2, h3, h4, h5⟩ := h
  refine ⟨by rw [h1]; rfl, by rw [h2]; rfl, rfl,
    h4 "uploads".toList "doc1".toList "txt".toList (by decide) (by decide) (by decide),
    ⟨_, h2, h5⟩⟩

/-! ## C1 — per-item retry tiers of the Batch Orchestrator -/

/-- A successful invocation ends the item loop with SUCCEEDED. -/
theorem runItemAux_ok (script : Nat → Attempt) (n fuel : Nat) (delays : List ℚ)
    (h : script n = .ok) :
    runItemAux script n fuel delays = .succeeded n delays := by
  cases fuel <;> simp [runItemAux, h]

/-- A failed invocation below the tier cap retries with the backoff delay. -/
theorem runItemAux_err_retry (script : Nat → Attempt) (n fuel fuel' : Nat)
    (delays : List ℚ) (e : SfnErrorName) (hf : fuel = fuel' + 1)
    (h : script n = .err e) (hlt : n < (classifyError e).maxAttempts) :
    runItemAux script n fuel delays =
      runItemAux script (n + 1) fuel'
        (delays ++ [(classifyError e).intervalSeconds
          * (classifyError e).backoffRate ^ (n - 1)]) := by
  subst hf
  simp [runItemAux, h, hlt]

/-- A failed invocation at the tier cap is dead-lettered. -/
theorem runItemAux_err_stop (script : Nat → Attempt) (n fuel : Nat)
    (delays : List ℚ) (e : SfnErrorName) (h : script n = .err e)
    (hge : ¬ n < (classifyError e).maxAttempts) :
    runItemAux script n fuel delays = .deadLettered e n delays := by
  cases fuel <;> simp [runItemAux, h, hge]

/-- C1: a tier A (throttling or timeout) error is retried under
`(2, 5, 2.0)`; an item throttled three times then succeeding reaches
SUCCEEDED at 4 ≤ 5 invocations, after backoff delays 2, 4, 8; any other
error is retried under tier B `(5, 2, 1.5)` and is dead-lettered after
exactly 2 invocations; every other item of the batch still gets exactly its
own independent outcome. -/
theorem C1_retry_tiers (scripts : List (Nat → Attempt)) (i j : Nat)
    (s t : Nat → Attempt) (e f : SfnErrorName)
    (hsi : scripts[i]? = some s) (hsj : scripts[j]? = some t)
    (he : tierAMatches e = true) (hf : tierAMatches f = false)
    (hs : ∀ n, s n = if n ≤ 3 then .err e else .ok)
    (ht : ∀ n, t n = .err f) :
    classifyError e = tierA ∧ tierA = ⟨2, 5, 2⟩ ∧
    classifyError f = tierB ∧ tierB = ⟨5, 2, 3 / 2⟩ ∧
    runItem s = .succeeded 4 [2, 4, 8] ∧ 4 ≤ tierA.maxAttempts ∧
    runItem t = .deadLettered f 2 [5] ∧
    (batchRun scripts).outcomes[i]? = some (.succeeded 4 [2, 4, 8]) ∧
    (batchRun scripts).outcomes[j]? = some (.deadLettered f 2 [5]) ∧
    (∀ m : Nat, (batchRun scripts).outcomes[m]? = (scripts[m]?).map runItem) := by
  have hc : classifyError e = tierA := by simp [classifyError, he]
  have hcB : classifyError f = tierB := by simp [classifyError, hf]
  have h1 : s 1 = .err e := by simp [hs]
  have h2 : s 2 = .err e := by simp [hs]
  have h3 : s 3 = .err e := by simp [hs]
  have h4 : s 4 = .ok := by simp [hs]
  have hrs : runItem s = .succeeded 4 [2, 4, 8] := by
    rw [runItem,
      runItemAux_err_retry s 1 5 4 [] e (by norm_num) h1 (by rw [hc]; decide),
      runItemAux_err_retry s 2 4 3 _ e (by norm_num) h2 (by rw [hc]; decide),
      runItemAux_err_retry s 3 3 2 _ e (by norm_num) h3 (by rw [hc]; decide),
      runItemAux_ok s 4 2 _ h4, hc]
    norm_num [tierA]
  have hrt : runItem t = .deadLettered f 2 [5] := by
    rw [runItem,
      runItemAux_err_retry t 1 5 4 [] f (by norm_num) (ht 1) (by rw [hcB]; decide),
      runItemAux_err_stop t 2 4 _ f (ht 2) (by rw [hcB]; decide), hcB]
    norm_num [tierB]
  refine ⟨hc, rfl, hcB, rfl, hrs, by decide, hrt, ?_, ?_, ?_⟩
  · simp [batchRun, List.getElem?_map, hsi, hrs]
  · simp [batchRun, List.getElem?_map, hsj, hrt]
  · intro m
    simp [batchRun, List.getElem?_map]

/-- Three throttles then success. -/
def scriptThrottle : Nat → Attempt :=
  fun n => if n ≤ 3 then .err .throttlingException else .ok

/-- A persistently failing non-retryable worker. -/
def scriptServiceFail : Nat → Attempt :=
  fun _ => .err (.other "ServiceException".toList)

/-- Witness for C1 on a concrete two-item batch: the throttled item succeeds
on its fourth invocation with backoff 2, 4, 8; the non-retryable item is
dead-lettered after its second invocation. -/
theorem C1_retry_tiers_witness :
    tierAMatches SfnErrorName.throttlingException = true ∧
    tierAMatches (SfnErrorName.other "ServiceException".toList) = false ∧
    runItem scriptThrottle = .succeeded 4 [2, 4, 8] ∧
    runItem scriptServiceFail =
      .deadLettered (.other "ServiceException".toList) 2 [5] ∧
    (batchRun [scriptThrottle, scriptServiceFail]).outcomes[0]? =
      some (.succeeded 4 [2, 4, 8]) ∧
    (batchRun [scriptThrottle, scriptServiceFail]).outcomes[1]? =
      some (.deadLettered (.other "ServiceException".toList) 2 [5]) :=
  have h := C1_retry_tiers [scriptThrottle, scriptServiceFail] 0 1
    scriptThrottle scriptServiceFail .throttlingException
    (.other "ServiceException".toList) rfl rfl rfl rfl
    (fun _ => rfl) (fun _ => rfl)
  ⟨rfl, rfl, h.2.2.2.2.1, h.2.2.2.2.2.2.1, h.2.2.2.2.2.2.2.1, h.2.2.2.2.2.2.2.2.1⟩

end LifeProof
